import Mathlib

set_option maxRecDepth 2300

/-!
Shallow embedding of `weather_cli.py`: a command-line weather lookup tool that
resolves a city name to a location id (`get_location_id`), fetches current
weather with a 30-minute on-disk cache (`get_weather_data`), formats a report
(`format_weather_output`) and drives everything from `main`.

Modelling conventions:
* The ambient process state is a `World`: the cache directory (a map from
  location id to a cache file's state), the current `time.time()` clock, the
  two HTTP endpoints as response oracles, and the `datetime.now` wall-clock
  string that the formatter interpolates.
* Fallible Python code is embedded in `Except Exc`: an `Except.error` value is
  an exception that propagates uncaught; `Except.ok` is a normal return
  (Python `None` becomes `Option.none`).
* Dictionaries from parsed JSON are structures with `Option` fields: `none`
  means the key is absent, so `d['k']` raises `KeyError` exactly when the
  field is `none`, while `d.get('k')` yields the `Option` itself.
* Machine floats (`time.time()`, `float(...)`) are modelled as rationals.
-/

deriving instance DecidableEq for Except

/-- A raised Python exception escaping one of the modelled functions. -/
inductive Exc where
  | jsonDecodeError
  | keyError (k : String)
  | valueError
  deriving DecidableEq

/-- The `now` object of a QWeather realtime payload; each field is `none` when
the corresponding JSON key is absent. -/
structure NowDict where
  temp : Option String
  feelsLike : Option String
  humidity : Option String
  windSpeed : Option String
  windDir : Option String
  vis : Option String
  text : Option String
  deriving DecidableEq

/-- A parsed QWeather response body: `code`, the `now` object and
`updateTime`, each `none` when the key is absent. -/
structure WeatherDict where
  code : Option String
  now : Option NowDict
  updateTime : Option String
  deriving DecidableEq

/-- Contents of a cache file: either a JSON document that `json.load` parses
to a weather dict, or contents that `json.load` rejects with
`json.JSONDecodeError`. -/
inductive CacheContent where
  | valid (d : WeatherDict)
  | invalid
  deriving DecidableEq

/-- State of one on-disk cache file: its contents and its mtime. -/
structure FileState where
  content : CacheContent
  mtime : ℚ
  deriving DecidableEq

/-- Outcome of `requests.get` on the weather endpoint for a location id:
either a request/parse failure (`requests` exception or a body that
`response.json()` rejects, both caught inside `get_weather_data`) or a parsed
JSON dict. -/
inductive NetResult where
  | netFail
  | jsonOk (d : WeatherDict)
  deriving DecidableEq

/-- Outcome of `requests.get` on the geocoding endpoint for a city name:
failure (any exception, caught inside `get_location_id`) or a parsed body
with its `code` and `location` list of (id, name) pairs. -/
inductive GeoResult where
  | geoFail
  | geoOk (code : Option String) (locs : List (String × String))
  deriving DecidableEq

/-- The ambient process state threaded through the embedded functions. -/
structure World where
  cache : String → Option FileState
  time : ℚ
  weatherResp : String → NetResult
  geoResp : String → GeoResult
  clockStr : String

/-- Parsed command-line arguments (`argparse` glue is out of scope; `city`
already carries the environment default). -/
structure Args where
  city : String
  unit : String
  clear_cache : Bool

/-- `CACHE_EXPIRY = 30 * 60`, the 30-minute cache freshness window. -/
def CACHE_EXPIRY : ℚ := 30 * 60

/-- The network-fetch half of `get_weather_data` (its lines 66-89): GET the
weather endpoint; on code `'200'` write the payload to the cache file (whose
mtime becomes the current time) and return it; on any other code or on a
request failure print an error and return `None`. Result is
(returned value, world after, number of network requests made). -/
def fetch_weather (location_id : String) (w : World) :
    Except Exc (Option WeatherDict) × World × Nat :=
  match w.weatherResp location_id with
  | NetResult.netFail => (Except.ok none, w, 1)
  | NetResult.jsonOk d =>
    if d.code = some "200" then
      (Except.ok (some d),
       { w with cache := fun i =>
           if i = location_id then some ⟨CacheContent.valid d, w.time⟩
           else w.cache i },
       1)
    else
      (Except.ok none, w, 1)

/-- `get_weather_data(location_id)`: if the cache file exists and
`now - mtime < CACHE_EXPIRY`, return `json.load` of the file — this read sits
OUTSIDE the `try` block, so an unparsable cache file raises an uncaught
`json.JSONDecodeError`; otherwise fall through to the network fetch. -/
def get_weather_data (location_id : String) (w : World) :
    Except Exc (Option WeatherDict) × World × Nat :=
  match w.cache location_id with
  | some fs =>
    if w.time - fs.mtime < CACHE_EXPIRY then
      match fs.content with
      | CacheContent.valid d => (Except.ok (some d), w, 0)
      | CacheContent.invalid => (Except.error Exc.jsonDecodeError, w, 0)
    else
      fetch_weather location_id w
  | none => fetch_weather location_id w

/-- `get_location_id(city_name)`: GET the geocoding endpoint; on code `'200'`
with a non-empty `location` list return id and name of the first match,
otherwise (or on any exception, all caught) return `(None, None)`. Result is
(optional (id, name), number of network requests made). -/
def get_location_id (city_name : String) (w : World) :
    Option (String × String) × Nat :=
  match w.geoResp city_name with
  | GeoResult.geoFail => (none, 1)
  | GeoResult.geoOk code locs =>
    if code = some "200" then
      match locs with
      | [] => (none, 1)
      | l :: _ => (some l, 1)
    else
      (none, 1)

/-- Numeric value of an all-digit character list. -/
def digitsVal (cs : List Char) : ℕ :=
  cs.foldl (fun a c => a * 10 + (c.toNat - 48)) 0

/-- Model of Python `float(s)` on the plain decimal literals the QWeather API
emits: optional sign, integer digits, optional dot and fractional digits;
`none` models the `ValueError` any other string raises. -/
def pyFloat (s : String) : Option ℚ :=
  let cs := s.data
  let sgn : ℚ := if cs.head? = some '-' then -1 else 1
  let body := if cs.head? = some '-' ∨ cs.head? = some '+' then cs.tail else cs
  let ip := body.takeWhile Char.isDigit
  let rest := body.dropWhile Char.isDigit
  match rest with
  | [] => if ip.isEmpty then none else some (sgn * digitsVal ip)
  | '.' :: fp =>
    if fp.all Char.isDigit && !(ip.isEmpty && fp.isEmpty) then
      some (sgn * ((digitsVal ip : ℚ) + (digitsVal fp : ℚ) / (10 : ℚ) ^ fp.length))
    else none
  | _ => none

/-- Rounding of a rational to an integer with ties to even, the rounding used
when Python formats a float. -/
def roundHalfEven (q : ℚ) : ℤ :=
  let f : ℤ := Rat.floor q
  if q - (f : ℚ) < 1/2 then f
  else if 1/2 < q - (f : ℚ) then f + 1
  else if f % 2 = 0 then f else f + 1

/-- Model of the Python format spec `{x:.1f}`: `x` rendered with exactly one
decimal place. -/
def formatFixed1 (q : ℚ) : String :=
  let n := roundHalfEven (q * 10)
  if n < 0 then
    "-" ++ toString ((-n).toNat / 10) ++ "." ++ toString ((-n).toNat % 10)
  else
    toString (n.toNat / 10) ++ "." ++ toString (n.toNat % 10)

/-- The fixed message returned for a missing or `now`-less payload. -/
def errNoData : String := "❌ 无法获取天气数据"

/-- The 27-character rule used as a separator in the output template. -/
def sepLine : String := "━━━━━━━━━━━━━━━━━━━━━━━━━━━"

/-- The `weather_icons` map of condition text to emoji. -/
def weather_icons : List (String × String) :=
  [("Sunny", "☀️"), ("Cloudy", "⛅"), ("Overcast", "☁️"), ("Rain", "🌧️"),
   ("Snow", "❄️"), ("Thunder", "⚡"), ("Fog", "🌫️"), ("Haze", "🌫️")]

/-- Python `dict.get(k, default)` over an association list. -/
def dictGetD (m : List (String × String)) (k dflt : String) : String :=
  match m.find? (fun p => p.1 == k) with
  | some p => p.2
  | none => dflt

/-- `d[k]` on an optional field: the value, or `KeyError` when absent. -/
def getKey (v : Option String) (k : String) : Except Exc String :=
  match v with
  | some s => Except.ok s
  | none => Except.error (Exc.keyError k)

/-- `float(s)` in `Except`: `ValueError` when the string does not parse. -/
def pyFloatE (s : String) : Except Exc ℚ :=
  match pyFloat s with
  | some q => Except.ok q
  | none => Except.error Exc.valueError

/-- Python `updateTime.replace('T', ' ')` (single-character replacement). -/
def replaceTspace (s : String) : String :=
  ⟨s.data.map (fun c => if c = 'T' then ' ' else c)⟩

/-- Body of `format_weather_output` after its guard, with the
`datetime.now(tz).strftime('%Y-%m-%d %H:%M')` string passed as
`current_time`. Field accesses and `float` conversions happen in source
order, so the first absent key or unparsable number raises. -/
def format_weather_core (wd : WeatherDict) (nowD : NowDict) (city_name : String)
    (unit : String) (current_time : String) : Except Exc String := do
  let tempS ← getKey nowD.temp "temp"
  let temp_c ← pyFloatE tempS
  let temp_f := temp_c * 9 / 5 + 32
  let textS ← getKey nowD.text "text"
  let icon := dictGetD weather_icons textS "🌤️"
  let feelsS ← getKey nowD.feelsLike "feelsLike"
  let disp ←
    if unit = "f" then do
      let fl ← pyFloatE feelsS
      Except.ok (formatFixed1 temp_f ++ "°F", formatFixed1 (fl * 9 / 5 + 32) ++ "°F")
    else
      Except.ok (formatFixed1 temp_c ++ "°C", feelsS ++ "°C")
  let humidityS ← getKey nowD.humidity "humidity"
  let windSpeedS ← getKey nowD.windSpeed "windSpeed"
  let windDirS ← getKey nowD.windDir "windDir"
  let visS ← getKey nowD.vis "vis"
  let updateS ← getKey wd.updateTime "updateTime"
  Except.ok ("\n" ++ icon ++ " " ++ city_name ++ " 天气 (" ++ current_time ++ ")\n"
    ++ sepLine ++ "\n"
    ++ "🌡️  温度: " ++ disp.1 ++ "\n"
    ++ "😅  体感: " ++ disp.2 ++ "\n"
    ++ "💧  湿度: " ++ humidityS ++ "%\n"
    ++ "💨  风速: " ++ windSpeedS ++ " km/h " ++ windDirS ++ "\n"
    ++ "👀  能见度: " ++ visS ++ " km\n"
    ++ sepLine ++ "\n"
    ++ "更新时间: " ++ replaceTspace updateS ++ "\n")

/-- `format_weather_output(weather_data, city_name, unit='c')`: the guard
returns the fixed error string when the payload is `None`/falsy or lacks the
`'now'` key; otherwise render the report, reading the wall clock from the
world. -/
def format_weather_output (weather_data : Option WeatherDict) (city_name : String)
    (unit : String) (w : World) : Except Exc String :=
  match weather_data with
  | none => Except.ok errNoData
  | some wd =>
    match wd.now with
    | none => Except.ok errNoData
    | some nowD => format_weather_core wd nowD city_name unit w.clockStr

/-- Python truthiness of the weather payload at line 173 (`if not
weather_data:`): falsy when it is `None` or the empty dict — under this
model's convention a dict is empty exactly when every modelled key is
absent. -/
def weatherFalsy : Option WeatherDict → Bool
  | none => true
  | some wd => wd.code.isNone && wd.now.isNone && wd.updateTime.isNone

/-- Lines 166-180 of `main()`: geocode the city (a falsy location id — `None`
or the empty string — returns 1), run the cached fetch (a falsy payload —
`None` or the empty dict — returns 1), format and print (return 0).
Exceptions propagate. The `Nat` accumulates the network requests made. -/
def main_lookup (args : Args) (w : World) :
    Except Exc (Option Int) × World × Nat :=
  match get_location_id args.city w with
  | (none, n1) => (Except.ok (some 1), w, n1)
  | (some (location_id, found_city), n1) =>
    if location_id = "" then
      (Except.ok (some 1), w, n1)
    else
      match get_weather_data location_id w with
      | (Except.error e, w2, n2) => (Except.error e, w2, n1 + n2)
      | (Except.ok weather_data, w2, n2) =>
        if weatherFalsy weather_data then
          (Except.ok (some 1), w2, n1 + n2)
        else
          match format_weather_output weather_data found_city args.unit w2 with
          | Except.error e => (Except.error e, w2, n1 + n2)
          | Except.ok _ => (Except.ok (some 0), w2, n1 + n2)

/-- `main()`: the `--clear-cache` short-circuit (`shutil.rmtree` +
`os.makedirs`, Python return `None`), then the API-key check (return 1), then
the lookup. Returns the Python return value, the final world and the number
of network requests. -/
def cli_main (args : Args) (api_key : String) (w : World) :
    Except Exc (Option Int) × World × Nat :=
  if args.clear_cache then
    (Except.ok none, { w with cache := fun _ => none }, 0)
  else if api_key = "" ∨ api_key = "your_api_key_here" then
    (Except.ok (some 1), w, 0)
  else
    main_lookup args w

/-- `exit(main())`: `exit(None)` and `exit(0)` give process status 0,
`exit(1)` gives 1. -/
def exit_code : Option Int → Int
  | none => 0
  | some n => n

/-- The fixed `now` payload of the spec's formatter property (§8), with the
remaining required fields filled in. -/
def sampleNow : NowDict :=
  { temp := some "20", feelsLike := some "19", humidity := some "50",
    windSpeed := some "10", windDir := some "NE", vis := some "16",
    text := some "Sunny" }

/-- A successful ('200') weather response carrying `sampleNow`. -/
def samplePayload : WeatherDict :=
  { code := some "200", now := some sampleNow,
    updateTime := some "2026-02-03T10:00+08:00" }

/-- A world with an empty cache and both endpoints answering successfully. -/
def sampleWorld : World :=
  { cache := fun _ => none,
    time := 10000,
    weatherResp := fun _ => NetResult.jsonOk samplePayload,
    geoResp := fun _ => GeoResult.geoOk (some "200") [("1", "Beijing")],
    clockStr := "2026-02-03 10:00" }

/-- `sampleWorld` with a cache file for id "1" written at time 9000,
hence 1000 seconds old: fresh. -/
def cachedWorld : World :=
  { sampleWorld with cache := fun i =>
      if i = "1" then some ⟨CacheContent.valid samplePayload, 9000⟩
      else none }

/-- A world whose cache file for "1" is 10000 seconds old (stale) and
whose weather endpoint fails. -/
def staleFailWorld : World :=
  { cache := fun i =>
      if i = "1" then some ⟨CacheContent.valid samplePayload, 0⟩
      else none,
    time := 10000,
    weatherResp := fun _ => NetResult.netFail,
    geoResp := fun _ => GeoResult.geoFail,
    clockStr := "2026-02-03 10:00" }

/-- A world whose cache file for "1" is fresh (age 1000 s) but holds
contents `json.load` cannot parse; the geocoder resolves normally. -/
def corruptCacheWorld : World :=
  { cache := fun i =>
      if i = "1" then some ⟨CacheContent.invalid, 9000⟩
      else none,
    time := 10000,
    weatherResp := fun _ => NetResult.netFail,
    geoResp := fun _ => GeoResult.geoOk (some "200") [("1", "Beijing")],
    clockStr := "2026-02-03 10:00" }

/-- A world whose cache file for "1" freshly (age 1000 s) holds the empty
JSON object — a falsy payload; the geocoder resolves normally. -/
def emptyDictWorld : World :=
  { cache := fun i =>
      if i = "1" then some ⟨CacheContent.valid ⟨none, none, none⟩, 9000⟩
      else none,
    time := 10000,
    weatherResp := fun _ => NetResult.netFail,
    geoResp := fun _ => GeoResult.geoOk (some "200") [("1", "Beijing")],
    clockStr := "2026-02-03 10:00" }

/-- Arguments of a plain `weather_cli.py beijing` invocation. -/
def sampleArgs : Args := { city := "beijing", unit := "c", clear_cache := false }

/-- Arguments of `weather_cli.py beijing --unit f`. -/
def sampleArgsF : Args := { city := "beijing", unit := "f", clear_cache := false }

/-- Arguments of `weather_cli.py --clear-cache`. -/
def clearArgs : Args := { city := "beijing", unit := "c", clear_cache := true }

/-- `sampleWorld` with the wall clock one minute later. -/
def laterClockWorld : World :=
  { sampleWorld with clockStr := "2026-02-03 10:01" }

/-- The report the formatter builds for `samplePayload`, city "Beijing" and
unit `f`, with the wall-clock string `t`, following the append structure of
the source template. -/
def mkReport (t : String) : String :=
  "\n" ++ "☀️" ++ " " ++ "Beijing" ++ " 天气 (" ++ t ++ ")\n"
  ++ sepLine ++ "\n"
  ++ "🌡️  温度: " ++ "68.0°F" ++ "\n"
  ++ "😅  体感: " ++ "66.2°F" ++ "\n"
  ++ "💧  湿度: " ++ "50" ++ "%\n"
  ++ "💨  风速: " ++ "10" ++ " km/h " ++ "NE" ++ "\n"
  ++ "👀  能见度: " ++ "16" ++ " km\n"
  ++ sepLine ++ "\n"
  ++ "更新时间: " ++ "2026-02-03 10:00+08:00" ++ "\n"

/-- The report rendered for `samplePayload`, city "Beijing", unit `f`, clock
"2026-02-03 10:00". -/
def sampleOutputF : String :=
  "\n☀️ Beijing 天气 (2026-02-03 10:00)\n"
  ++ sepLine ++ "\n"
  ++ "🌡️  温度: 68.0°F\n"
  ++ "😅  体感: 66.2°F\n"
  ++ "💧  湿度: 50%\n"
  ++ "💨  风速: 10 km/h NE\n"
  ++ "👀  能见度: 16 km\n"
  ++ sepLine ++ "\n"
  ++ "更新时间: 2026-02-03 10:00+08:00\n"

/-- Binding an `Except.ok` value reduces to applying the continuation. -/
theorem except_bind_ok {ε α β : Type} (a : α) (f : α → Except ε β) :
    (Except.ok a : Except ε α) >>= f = f a := rfl

/-- The network-fetch path always performs exactly one request. -/
theorem fetch_weather_netcalls (location_id : String) (w : World) :
    (fetch_weather location_id w).2.2 = 1 := by
  unfold fetch_weather
  cases w.weatherResp location_id with
  | netFail => rfl
  | jsonOk d =>
    dsimp only
    split <;> rfl

/-- With an absent or stale cache file, `get_weather_data` is the network
fetch. -/
theorem get_weather_data_stale_eq (location_id : String) (w : World)
    (h : w.cache location_id = none ∨
      ∃ fs, w.cache location_id = some fs ∧ CACHE_EXPIRY ≤ w.time - fs.mtime) :
    get_weather_data location_id w = fetch_weather location_id w := by
  unfold get_weather_data
  rcases h with h | ⟨fs, hfs, hst⟩
  · rw [h]
  · rw [hfs]
    dsimp only
    rw [if_neg (not_lt.mpr hst)]

/-- C1: when the cache file for a location id exists, holds a parsable
payload, and is strictly younger than `CACHE_EXPIRY = 1800` seconds,
`get_weather_data` returns the cached payload with the world unchanged and
zero network requests; moreover, given such a cache file, it performs no
network request if and only if `now - mtime < 1800` — the staleness rule. -/
theorem get_weather_data_fresh_cache_hit
    (location_id : String) (w : World) (fs : FileState) (d : WeatherDict)
    (hc : w.cache location_id = some fs)
    (hv : fs.content = CacheContent.valid d) :
    (w.time - fs.mtime < CACHE_EXPIRY →
      get_weather_data location_id w = (Except.ok (some d), w, 0)) ∧
    ((get_weather_data location_id w).2.2 = 0 ↔
      w.time - fs.mtime < CACHE_EXPIRY) := by
  have hmain : w.time - fs.mtime < CACHE_EXPIRY →
      get_weather_data location_id w = (Except.ok (some d), w, 0) := by
    intro hfresh
    unfold get_weather_data
    rw [hc]
    dsimp only
    rw [if_pos hfresh, hv]
  refine ⟨hmain, ?_⟩
  by_cases hfresh : w.time - fs.mtime < CACHE_EXPIRY
  · rw [hmain hfresh]
    simpa using hfresh
  · rw [get_weather_data_stale_eq location_id w (Or.inr ⟨fs, hc, not_lt.mp hfresh⟩),
      fetch_weather_netcalls]
    simpa using hfresh

/-- C1 witness: a cache entry 1000 seconds old is served with no request. -/
theorem get_weather_data_fresh_cache_hit_witness :
    get_weather_data "1" cachedWorld =
      (Except.ok (some samplePayload), cachedWorld, 0) :=
  (get_weather_data_fresh_cache_hit "1" cachedWorld
      ⟨CacheContent.valid samplePayload, 9000⟩ samplePayload
      rfl rfl).1 (by with_unfolding_all decide)

/-- C2: when the cache file is absent or at least 1800 seconds old,
`get_weather_data` performs exactly one network request, and if the endpoint
answers a payload with code '200' it returns that payload after overwriting
the cache entry for this id with the payload stamped at the current time. -/
theorem get_weather_data_stale_fetch (location_id : String) (w : World)
    (hstale : w.cache location_id = none ∨
      ∃ fs, w.cache location_id = some fs ∧ CACHE_EXPIRY ≤ w.time - fs.mtime) :
    (get_weather_data location_id w).2.2 = 1 ∧
    ∀ d, w.weatherResp location_id = NetResult.jsonOk d → d.code = some "200" →
      get_weather_data location_id w =
        (Except.ok (some d),
         { w with cache := fun i =>
             if i = location_id then some ⟨CacheContent.valid d, w.time⟩
             else w.cache i },
         1) := by
  rw [get_weather_data_stale_eq location_id w hstale]
  refine ⟨fetch_weather_netcalls location_id w, fun d hd hcode => ?_⟩
  unfold fetch_weather
  rw [hd]
  dsimp only
  rw [if_pos hcode]

/-- C2 witness: with an empty cache the payload is fetched and persisted. -/
theorem get_weather_data_stale_fetch_witness :
    get_weather_data "1" sampleWorld =
      (Except.ok (some samplePayload),
       { sampleWorld with cache := fun i =>
           if i = "1" then some ⟨CacheContent.valid samplePayload, sampleWorld.time⟩
           else sampleWorld.cache i },
       1) :=
  (get_weather_data_stale_fetch "1" sampleWorld (Or.inl rfl)).2
    samplePayload rfl rfl

/-- C3: with a stale cache entry (age ≥ 1800 s), if the fetch fails or the
response code is not '200', `get_weather_data` returns `None` — the stale
entry is not served as fallback — and the world, in particular the cache
file, is unchanged: no write happens on the error path. -/
theorem get_weather_data_stale_error
    (location_id : String) (w : World) (fs : FileState)
    (hc : w.cache location_id = some fs)
    (hstale : CACHE_EXPIRY ≤ w.time - fs.mtime)
    (herr : w.weatherResp location_id = NetResult.netFail ∨
      ∃ d, w.weatherResp location_id = NetResult.jsonOk d ∧ d.code ≠ some "200") :
    get_weather_data location_id w = (Except.ok none, w, 1) := by
  rw [get_weather_data_stale_eq location_id w (Or.inr ⟨fs, hc, hstale⟩)]
  unfold fetch_weather
  rcases herr with h | ⟨d, hd, hcode⟩
  · rw [h]
  · rw [hd]
    dsimp only
    rw [if_neg hcode]

/-- C3 witness: a 10000-second-old entry plus a failing endpoint yields
`None` and leaves the world untouched. -/
theorem get_weather_data_stale_error_witness :
    get_weather_data "1" staleFailWorld =
      (Except.ok none, staleFailWorld, 1) :=
  get_weather_data_stale_error "1" staleFailWorld
    ⟨CacheContent.valid samplePayload, 0⟩ (by with_unfolding_all decide)
    (by with_unfolding_all decide) (Or.inl rfl)

/-- Evaluation of the formatter on `samplePayload` with unit `f` and any
world: the rendered report is `mkReport` of that world's wall clock. -/
theorem format_sample_eval (w : World) :
    format_weather_output (some samplePayload) "Beijing" "f" w =
      Except.ok (mkReport w.clockStr) := by
  have h20 : pyFloatE "20" = Except.ok 20 := by with_unfolding_all rfl
  have h19 : pyFloatE "19" = Except.ok 19 := by with_unfolding_all rfl
  have hf1 : formatFixed1 ((20 : ℚ) * 9 / 5 + 32) = "68.0" := by
    with_unfolding_all decide
  have hf2 : formatFixed1 ((19 : ℚ) * 9 / 5 + 32) = "66.2" := by
    with_unfolding_all decide
  have hrep : replaceTspace "2026-02-03T10:00+08:00" = "2026-02-03 10:00+08:00" := by
    with_unfolding_all decide
  simp [format_weather_output, format_weather_core, samplePayload, sampleNow,
    getKey, h20, h19, hf1, hf2, hrep, dictGetD, weather_icons, List.find?,
    mkReport, sepLine, String.append_assoc, except_bind_ok]
  rw [← String.append_assoc, ← String.append_assoc]
  simp

/-- C5: on the spec's fixed payload (temp=20, feelsLike=19, humidity=50,
windSpeed=10, text="Sunny") with unit `f`, the formatter renders the
temperature and feels-like through `F = C*9/5+32` with exactly one decimal
place — 68.0°F and 66.2°F — inside the report. -/
theorem format_weather_output_fahrenheit_sample :
    formatFixed1 ((20 : ℚ) * 9 / 5 + 32) = "68.0" ∧
    formatFixed1 ((19 : ℚ) * 9 / 5 + 32) = "66.2" ∧
    format_weather_output (some samplePayload) "Beijing" "f" sampleWorld =
      Except.ok sampleOutputF := by
  refine ⟨by with_unfolding_all decide, by with_unfolding_all decide, ?_⟩
  rw [format_sample_eval]
  simp [mkReport, sampleWorld, sampleOutputF, sepLine, String.append_assoc]

/-- C9 counterexample: two invocations with equal arguments (payload, display
name, unit) but made at different wall-clock minutes return different
strings, because the formatter interpolates `datetime.now`: its output is not
determined solely by its arguments. -/
theorem format_weather_output_clock_dependent :
    format_weather_output (some samplePayload) "Beijing" "f" sampleWorld ≠
      format_weather_output (some samplePayload) "Beijing" "f" laterClockWorld := by
  rw [format_sample_eval, format_sample_eval]
  simp [mkReport, sampleWorld, laterClockWorld, sepLine, String.append_assoc]

/-- C9 amended: the formatter writes nothing (the world is not returned) and
its output is a function of its arguments together with the current wall
clock alone: any two worlds with equal `datetime.now` strings yield equal
outputs, whatever their caches, clocks and network oracles. -/
theorem format_weather_output_deterministic
    (weather_data : Option WeatherDict) (city_name unit : String)
    (w1 w2 : World) (h : w1.clockStr = w2.clockStr) :
    format_weather_output weather_data city_name unit w1 =
      format_weather_output weather_data city_name unit w2 := by
  simp only [format_weather_output, h]

/-- C9 amended witness: two worlds differing in cache, time and endpoints but
with equal clocks format equally. -/
theorem format_weather_output_deterministic_witness :
    format_weather_output (some samplePayload) "Beijing" "c" sampleWorld =
      format_weather_output (some samplePayload) "Beijing" "c" staleFailWorld :=
  format_weather_output_deterministic (some samplePayload) "Beijing" "c"
    sampleWorld staleFailWorld rfl

/-- C10: a `None` payload, or a payload whose dict lacks the `'now'` key,
makes `format_weather_output` return the fixed error string `errNoData`
without raising; field accesses happen only after the guard has seen `'now'`. -/
theorem format_weather_output_guard
    (weather_data : Option WeatherDict) (city_name unit : String) (w : World)
    (h : weather_data = none ∨ ∃ wd, weather_data = some wd ∧ wd.now = none) :
    format_weather_output weather_data city_name unit w = Except.ok errNoData := by
  rcases h with h | ⟨wd, hwd, hn⟩
  · rw [h]
    rfl
  · rw [hwd]
    unfold format_weather_output
    dsimp only
    rw [hn]

/-- C10 witness: the guard fires on the `None` payload. -/
theorem format_weather_output_guard_witness :
    format_weather_output none "Beijing" "c" sampleWorld = Except.ok errNoData :=
  format_weather_output_guard none "Beijing" "c" sampleWorld (Or.inl rfl)

/-- Without `--clear-cache` and with a usable key, `main` is the lookup. -/
theorem cli_main_good_key (args : Args) (api_key : String) (w : World)
    (hcc : args.clear_cache = false)
    (hk1 : api_key ≠ "") (hk2 : api_key ≠ "your_api_key_here") :
    cli_main args api_key w = main_lookup args w := by
  unfold cli_main
  rw [hcc, if_neg Bool.false_ne_true, if_neg (fun h => h.elim hk1 hk2)]

/-- Without `--clear-cache`, an empty or placeholder key returns 1 at once. -/
theorem cli_main_bad_key (args : Args) (api_key : String) (w : World)
    (hcc : args.clear_cache = false)
    (hk : api_key = "" ∨ api_key = "your_api_key_here") :
    cli_main args api_key w = (Except.ok (some 1), w, 0) := by
  unfold cli_main
  rw [hcc, if_neg Bool.false_ne_true, if_pos hk]

/-- An unresolved city makes the lookup return 1. -/
theorem main_lookup_geo_none (args : Args) (w : World)
    (h : (get_location_id args.city w).1 = none) :
    (main_lookup args w).1 = Except.ok (some 1) := by
  unfold main_lookup
  rcases hg : get_location_id args.city w with ⟨r, n1⟩
  rw [hg] at h
  dsimp only at h ⊢
  subst h
  rfl

/-- A falsy payload from the cached fetch — `None` or the empty dict — makes
the lookup return 1. -/
theorem main_lookup_weather_falsy (args : Args) (w : World) (lid name : String)
    (wd2 : Option WeatherDict)
    (hg : (get_location_id args.city w).1 = some (lid, name)) (hlid : lid ≠ "")
    (hw : (get_weather_data lid w).1 = Except.ok wd2)
    (hfalsy : weatherFalsy wd2 = true) :
    (main_lookup args w).1 = Except.ok (some 1) := by
  unfold main_lookup
  rcases hgeq : get_location_id args.city w with ⟨r, n1⟩
  rw [hgeq] at hg
  dsimp only at hg
  subst hg
  dsimp only
  rw [if_neg hlid]
  rcases hweq : get_weather_data lid w with ⟨res, w2, n2⟩
  rw [hweq] at hw
  dsimp only at hw
  subst hw
  dsimp only
  rw [hfalsy, if_pos rfl]

/-- A resolved city, a truthy payload and a formatted report make the lookup
return 0. -/
theorem main_lookup_success (args : Args) (w : World) (lid name : String)
    (wd : WeatherDict)
    (hg : (get_location_id args.city w).1 = some (lid, name)) (hlid : lid ≠ "")
    (hw : (get_weather_data lid w).1 = Except.ok (some wd))
    (hfalsy : weatherFalsy (some wd) = false)
    (hfmt : (format_weather_output (some wd) name args.unit
        (get_weather_data lid w).2.1).isOk = true) :
    (main_lookup args w).1 = Except.ok (some 0) := by
  unfold main_lookup
  rcases hgeq : get_location_id args.city w with ⟨r, n1⟩
  rw [hgeq] at hg
  dsimp only at hg
  subst hg
  dsimp only
  rw [if_neg hlid]
  rcases hweq : get_weather_data lid w with ⟨res, w2, n2⟩
  rw [hweq] at hw hfmt
  dsimp only at hw hfmt
  subst hw
  dsimp only
  rw [hfalsy, if_neg Bool.false_ne_true]
  rcases hf : format_weather_output (some wd) name args.unit w2 with e | out
  · rw [hf] at hfmt
    exact Bool.noConfusion hfmt
  · rfl

/-- C4 counterexample: with a valid key, a resolvable city and a fresh cache
file whose contents `json.load` rejects, `main` does not print a message and
produce an exit code: the `json.JSONDecodeError` raised by the cache read at
lines 63-64 — which sits outside the `try` block — propagates uncaught out
of `main`. -/
theorem cli_main_uncaught_cache_exception :
    (cli_main sampleArgs "k" corruptCacheWorld).1 =
      Except.error Exc.jsonDecodeError := by
  with_unfolding_all rfl

/-- C4 amended: the failure kinds the code does guard — missing or
placeholder API key, unresolved city, weather request failure or non-'200'
response — are all caught and converted to the non-zero return 1; however
(see the counterexample) a fresh cache file that `json.load` rejects raises
an exception that escapes `main` uncaught, as does a '200' payload lacking a
field the formatter reads. -/
theorem cli_main_catches_expected_failures (args : Args) (api_key : String)
    (w : World) (hcc : args.clear_cache = false) :
    ((api_key = "" ∨ api_key = "your_api_key_here") →
      (cli_main args api_key w).1 = Except.ok (some 1)) ∧
    (api_key ≠ "" → api_key ≠ "your_api_key_here" →
      ((get_location_id args.city w).1 = none →
        (cli_main args api_key w).1 = Except.ok (some 1)) ∧
      (∀ lid name, (get_location_id args.city w).1 = some (lid, name) →
        lid ≠ "" → (get_weather_data lid w).1 = Except.ok none →
        (cli_main args api_key w).1 = Except.ok (some 1))) := by
  refine ⟨fun hk => ?_, fun hk1 hk2 => ?_⟩
  · rw [cli_main_bad_key args api_key w hcc hk]
  · rw [cli_main_good_key args api_key w hcc hk1 hk2]
    exact ⟨main_lookup_geo_none args w,
      fun lid name hg hlid hw =>
        main_lookup_weather_falsy args w lid name none hg hlid hw rfl⟩

/-- C4 amended witness: a failing geocoder is caught and returns 1. -/
theorem cli_main_catches_expected_failures_witness :
    (cli_main sampleArgs "k" staleFailWorld).1 = Except.ok (some 1) :=
  ((cli_main_catches_expected_failures sampleArgs "k" staleFailWorld rfl).2
    (by decide) (by decide)).1 rfl

/-- C6: `--clear-cache` empties the cache directory and exits with status 0,
for every API key (none is required or checked) and with zero network
requests. -/
theorem cli_main_clear_cache_claim (args : Args) (api_key : String) (w : World)
    (hcc : args.clear_cache = true) :
    cli_main args api_key w =
      (Except.ok none, { w with cache := fun _ => none }, 0) ∧
    exit_code none = 0 := by
  constructor
  · unfold cli_main
    rw [hcc, if_pos rfl]
  · rfl

/-- C6 witness: clearing the cache with no API key configured. -/
theorem cli_main_clear_cache_claim_witness :
    cli_main clearArgs "" sampleWorld =
      (Except.ok none, { sampleWorld with cache := fun _ => none }, 0) ∧
    exit_code none = 0 :=
  cli_main_clear_cache_claim clearArgs "" sampleWorld rfl

/-- C7: without `--clear-cache`, a missing API key (`os.getenv` defaults it
to the empty string) makes `main` return exit status 1 after zero network
requests: neither the geocode nor the weather endpoint is contacted. -/
theorem cli_main_missing_key_claim (args : Args) (w : World)
    (hcc : args.clear_cache = false) :
    cli_main args "" w = (Except.ok (some 1), w, 0) ∧ exit_code (some 1) = 1 :=
  ⟨cli_main_bad_key args "" w hcc (Or.inl rfl), rfl⟩

/-- C7 witness: an empty key on a plain invocation. -/
theorem cli_main_missing_key_claim_witness :
    cli_main sampleArgs "" sampleWorld = (Except.ok (some 1), sampleWorld, 0) ∧
    exit_code (some 1) = 1 :=
  cli_main_missing_key_claim sampleArgs sampleWorld rfl

/-- C8: with `--clear-cache` off and a usable key, the process exit code is 0
when the city resolves, the cached fetch yields a truthy payload and the
report formats (and is printed); it is 1 when the geocoder yields no city or
the fetch yields a falsy payload — `None` or the empty dict, per the Python
truthiness test at line 173. -/
theorem cli_main_exit_codes (args : Args) (api_key : String) (w : World)
    (hcc : args.clear_cache = false)
    (hk1 : api_key ≠ "") (hk2 : api_key ≠ "your_api_key_here") :
    (∀ lid name wd, (get_location_id args.city w).1 = some (lid, name) →
      lid ≠ "" → (get_weather_data lid w).1 = Except.ok (some wd) →
      weatherFalsy (some wd) = false →
      (format_weather_output (some wd) name args.unit
        (get_weather_data lid w).2.1).isOk = true →
      (cli_main args api_key w).1 = Except.ok (some 0)) ∧
    ((get_location_id args.city w).1 = none →
      (cli_main args api_key w).1 = Except.ok (some 1)) ∧
    (∀ lid name wd2, (get_location_id args.city w).1 = some (lid, name) →
      lid ≠ "" → (get_weather_data lid w).1 = Except.ok wd2 →
      weatherFalsy wd2 = true →
      (cli_main args api_key w).1 = Except.ok (some 1)) ∧
    exit_code (some 0) = 0 ∧ exit_code (some 1) = 1 := by
  rw [cli_main_good_key args api_key w hcc hk1 hk2]
  exact ⟨fun lid name wd hg hlid hw hfalsy hfmt =>
      main_lookup_success args w lid name wd hg hlid hw hfalsy hfmt,
    main_lookup_geo_none args w,
    fun lid name wd2 hg hlid hw hfalsy =>
      main_lookup_weather_falsy args w lid name wd2 hg hlid hw hfalsy,
    rfl, rfl⟩

/-- C8 witness: a fully successful Fahrenheit lookup exits 0, and a fresh
cache file holding the empty JSON object — a falsy payload — exits 1. -/
theorem cli_main_exit_codes_witness :
    (cli_main sampleArgsF "k" sampleWorld).1 = Except.ok (some 0) ∧
    (cli_main sampleArgs "k" emptyDictWorld).1 = Except.ok (some 1) :=
  ⟨(cli_main_exit_codes sampleArgsF "k" sampleWorld rfl (by decide)
        (by decide)).1
      "1" "Beijing" samplePayload (by with_unfolding_all rfl) (by decide)
      (by with_unfolding_all rfl) rfl (by with_unfolding_all rfl),
    (cli_main_exit_codes sampleArgs "k" emptyDictWorld rfl (by decide)
        (by decide)).2.2.1
      "1" "Beijing" (some ⟨none, none, none⟩) (by with_unfolding_all rfl)
      (by decide) (by with_unfolding_all rfl) rfl⟩
